import Mathlib

/-!
Verification of the natural-language intent-recognition engine of the
`ai-script-inventory` repository.

The repository contains two implementations of the recognizer:

* `src/ai/intent.py` — the primary `IntentRecognizer` (spaCy path plus a
  keyword/regex fallback path); embedded below in namespace `PyIntent`.
* `src/ai/__init__.py` — a second, diverging `IntentRecognizer` (heredoc
  inside a setup script); embedded below in namespace `PyInit`.

The caller-side confidence gate of `src/ai_tools/superhuman_terminal.py`
(and its identical twin in `src/src/ai_script_inventory/superhuman_terminal.py`)
is embedded in namespace `Terminal`.

Python `float` confidences are modelled as `ℚ`; every score appearing in the
source is a small decimal literal, so this is exact.  Python strings are Lean
`String`s restricted to the ASCII inputs the engine manipulates.  The spaCy
pipeline (tokenisation, POS tags, dependency labels, matcher output) is an
external model; it is modelled as explicit inputs (`Doc`, match lists) to the
linguistic-path functions, exactly the data the Python code reads from it.

The regular expressions of the source use only literals, `\b`, `\s`, `\w`,
`\S`, `.`, character classes, `*`, `+`, `?`, `(…|…)`, `(?:…)?`, one negative
lookahead over literal alternatives, and the `^`/`$` anchors.  Namespace `Rgx`
implements a backtracking matcher for exactly these constructs with Python
semantics (leftmost match, greedy/lazy repetition, first result of the
backtracking order).
-/

namespace PyStr

/-- Python `str.strip()` whitespace set (ASCII part). -/
def pyIsSpace (c : Char) : Bool :=
  c == ' ' || c == '\t' || c == '\n' || c == '\r' || c == '\x0b' || c == '\x0c'

/-- Strip characters satisfying `p` from both ends of a character list. -/
def stripBoth (p : Char → Bool) (l : List Char) : List Char :=
  ((l.dropWhile p).reverse.dropWhile p).reverse

/-- Python `s.strip()`. -/
def pyStrip (s : String) : String := String.mk (stripBoth pyIsSpace s.data)

/-- Python `s.lower()` (ASCII). -/
def pyLower (s : String) : String := String.mk (s.data.map Char.toLower)

def splitWsAux : List Char → List Char → List String
  | [], acc => if acc.isEmpty then [] else [String.mk acc.reverse]
  | c :: rest, acc =>
    if pyIsSpace c then
      if acc.isEmpty then splitWsAux rest []
      else String.mk acc.reverse :: splitWsAux rest []
    else splitWsAux rest (c :: acc)

/-- Python `s.split()` — split on whitespace runs, no empty fields. -/
def pySplit (s : String) : List String := splitWsAux s.data []

/-- `leadsL n h` — `n` is a leading segment of `h`. -/
def leadsL : List Char → List Char → Bool
  | [], _ => true
  | _ :: _, [] => false
  | a :: as, b :: bs => a == b && leadsL as bs

def pyInL (n : List Char) : List Char → Bool
  | [] => n.isEmpty
  | c :: t => leadsL n (c :: t) || pyInL n t

/-- Python `needle in hay` (substring containment). -/
def pyIn (needle hay : String) : Bool := pyInL needle.data hay.data

/-- Python `s.endswith(suffix)`. -/
def pyEndsWith (s suffix : String) : Bool :=
  leadsL suffix.data.reverse s.data.reverse

/-- Python `s.startswith(p)`. -/
def pyStartsWith (s p : String) : Bool := leadsL p.data s.data

/-- Python `s.startswith(tuple)`. -/
def pyStartsWithAny (s : String) (ps : List String) : Bool :=
  ps.any (fun p => pyStartsWith s p)

/-- The character set of `word.strip(".,!?;:\x22\x27")` in
`_extract_file_target_regex`. -/
def isStripPunct (c : Char) : Bool :=
  c == '.' || c == ',' || c == '!' || c == '?' || c == ';' || c == ':' ||
  c == '"' || c == '\''

/-- `word.strip(".,!?;:\x22\x27")`. -/
def pyCleanWord (s : String) : String := String.mk (stripBoth isStripPunct s.data)

/-- Python truthiness of an optional string (`None` and `""` are falsy). -/
def pyTruthyOpt : Option String → Bool
  | none => false
  | some s => !s.isEmpty

/-- Python `text.split(sep, 1)`: `some (before, after)` at the first
occurrence of `sep`, `none` when `sep` does not occur. -/
def splitOnceAux (sep : List Char) : List Char → List Char → Option (String × String)
  | [], _acc => none
  | c :: t, acc =>
    if leadsL sep (c :: t) then
      some (String.mk acc.reverse, String.mk ((c :: t).drop sep.length))
    else splitOnceAux sep t (c :: acc)

def pySplitOnce (sep s : String) : Option (String × String) :=
  splitOnceAux sep.data s.data []

def isQuoteChar (c : Char) : Bool := c == '"' || c == '\''

/-- First result of `re.findall(r"[\x22\x27]([^\x22\x27]+)[\x22\x27]", s)`:
the earliest run of one or more non-quote characters enclosed between two
quote characters. -/
def firstQuotedL : List Char → Option (List Char)
  | [] => none
  | c :: rest =>
    if isQuoteChar c then
      let content := rest.takeWhile (fun d => !isQuoteChar d)
      let remain := rest.drop content.length
      match remain with
      | [] => firstQuotedL rest
      | _ :: _ => if content.isEmpty then firstQuotedL rest else some content
    else firstQuotedL rest

def firstQuoted (s : String) : Option String := (firstQuotedL s.data).map String.mk

end PyStr

namespace Rgx

/-- Python `\w` (ASCII). -/
def isWordC (c : Char) : Bool :=
  ('a' ≤ c && c ≤ 'z') || ('A' ≤ c && c ≤ 'Z') || ('0' ≤ c && c ≤ '9') || c == '_'

/-- Python `.` (anything but a newline). -/
def isAnyC (c : Char) : Bool := c != '\n'

/-- Python `\S`. -/
def isNonSpaceC (c : Char) : Bool := !PyStr.pyIsSpace c

/-- Regular-expression abstract syntax: exactly the constructs appearing in
the repository's patterns.  Repetition only ever applies to a single-character
class in the source, which keeps the backtracking matcher structurally
recursive. -/
inductive Rx where
  /-- empty pattern -/
  | eps
  /-- literal character sequence -/
  | lits (cs : List Char)
  /-- single-character class -/
  | cls (p : Char → Bool)
  /-- concatenation -/
  | cat2 (a b : Rx)
  /-- alternation `a|b` -/
  | alt2 (a b : Rx)
  /-- `p*` over a character class; lazy variant when `lz` -/
  | rep (p : Char → Bool) (lz : Bool)
  /-- `p+` over a character class (greedy) -/
  | rep1 (p : Char → Bool)
  /-- `a?` (greedy) -/
  | opt (a : Rx)
  /-- capture group `n` -/
  | grp (n : Nat) (a : Rx)
  /-- negative lookahead `(?!w1|w2|…)` over literal alternatives -/
  | nla (alts : List (List Char))
  /-- `\b` word boundary -/
  | bnd
  /-- `$` end anchor -/
  | eos

/-- Number of capture groups of a pattern (the length of Python's
`match.groups()` tuple). -/
def Rx.ngroups : Rx → Nat
  | .cat2 a b => a.ngroups + b.ngroups
  | .alt2 a b => a.ngroups + b.ngroups
  | .opt a => a.ngroups
  | .grp _ a => 1 + a.ngroups
  | _ => 0

/-- Captured groups that participated in the match. -/
def Groups := List (Nat × List Char)

/-- Character comparison, optionally case-insensitive (`re.IGNORECASE`). -/
def chEq (ci : Bool) (a b : Char) : Bool :=
  if ci then a.toLower == b.toLower else a == b

/-- Case-insensitive-capable prefix test for literal alternatives. -/
def litLeads (ci : Bool) : List Char → List Char → Bool
  | [], _ => true
  | _ :: _, [] => false
  | a :: as, b :: bs => chEq ci a b && litLeads ci as bs

/-- Consume a literal character sequence. -/
def litsRun {σ : Type} (ci : Bool) : List Char → Option Char → List Char → Groups →
    (Option Char → List Char → Groups → Option σ) → Option σ
  | [], prev, s, g, k => k prev s g
  | c :: cs, _prev, s, g, k =>
    match s with
    | [] => none
    | x :: rest => if chEq ci c x then litsRun ci cs (some x) rest g k else none

/-- Backtracking repetition of a single-character class: greedy tries the
longer continuation first, lazy the shorter one, exactly Python's order. -/
def repGo {σ : Type} (p : Char → Bool) (lz : Bool)
    (k : Option Char → List Char → Groups → Option σ) :
    Option Char → List Char → Groups → Option σ
  | prev, [], g => k prev [] g
  | prev, c :: rest, g =>
    if p c then
      if lz then (k prev (c :: rest) g) <|> repGo p lz k (some c) rest g
      else (repGo p lz k (some c) rest g) <|> k prev (c :: rest) g
    else k prev (c :: rest) g

/-- `\b`: the word-ness of the previous and next character differ (string
edges count as non-word). -/
def atBnd (prev : Option Char) (s : List Char) : Bool :=
  (match prev with | some c => isWordC c | none => false) !=
  (match s with | c :: _ => isWordC c | [] => false)

/-- CPS backtracking matcher.  `prev` is the character before the current
position (for `\b`), `g` the groups captured so far; `k` is the continuation
receiving the rest of the input.  The first success of the backtracking
order is returned, which is Python's match. -/
def mtch {σ : Type} (ci : Bool) : Rx → Option Char → List Char → Groups →
    (Option Char → List Char → Groups → Option σ) → Option σ
  | .eps, prev, s, g, k => k prev s g
  | .lits cs, prev, s, g, k => litsRun ci cs prev s g k
  | .cls p, _prev, s, g, k =>
    (match s with
     | [] => none
     | c :: rest => if p c then k (some c) rest g else none)
  | .cat2 a b, prev, s, g, k =>
    mtch ci a prev s g (fun p2 s2 g2 => mtch ci b p2 s2 g2 k)
  | .alt2 a b, prev, s, g, k =>
    (mtch ci a prev s g k) <|> (mtch ci b prev s g k)
  | .rep p lz, prev, s, g, k => repGo p lz k prev s g
  | .rep1 p, prev, s, g, k =>
    (match s with
     | [] => none
     | c :: rest => if p c then repGo p false k (some c) rest g else none)
  | .opt a, prev, s, g, k => (mtch ci a prev s g k) <|> (k prev s g)
  | .grp n a, prev, s, g, k =>
    mtch ci a prev s g
      (fun p2 s2 g2 => k p2 s2 ((n, s.take (s.length - s2.length)) :: g2))
  | .nla alts, prev, s, g, k =>
    if alts.any (fun l => litLeads ci l s) then none else k prev s g
  | .bnd, prev, s, g, k => if atBnd prev s then k prev s g else none
  | .eos, prev, s, g, k =>
    (match s with
     | [] => k prev [] g
     | _ :: _ => none)

/-- `re.search`: try each start position left to right. -/
def searchFrom (ci : Bool) (r : Rx) : Option Char → List Char →
    Option (List Char × Groups)
  | prev, s =>
    match mtch ci r prev s ([] : Groups)
        (fun _p rest g => some (s.take (s.length - rest.length), g)) with
    | some res => some res
    | none =>
      match s with
      | [] => none
      | c :: rest => searchFrom ci r (some c) rest

/-- `re.search(r, s)` returning the matched text and the captured groups. -/
def pySearch (ci : Bool) (r : Rx) (s : String) : Option (String × Groups) :=
  (searchFrom ci r none s.data).map (fun pr => (String.mk pr.1, pr.2))

/-- `re.match(r, s)`: anchored at the start of the string. -/
def pyMatchA (ci : Bool) (r : Rx) (s : String) : Option (String × Groups) :=
  (mtch ci r none s.data ([] : Groups)
      (fun _p rest g => some (s.data.take (s.data.length - rest.length), g))).map
    (fun pr => (String.mk pr.1, pr.2))

/-- `match.group(n)` for `n ≥ 1`: `none` when the group did not participate. -/
def getGroup (g : Groups) (n : Nat) : Option String :=
  (g.lookup n).map String.mk

def catList : List Rx → Rx
  | [] => .eps
  | [r] => r
  | r :: rest => .cat2 r (catList rest)

def altL : List Rx → Rx
  | [] => .eps
  | [r] => r
  | r :: rest => .alt2 r (altL rest)

def lit (s : String) : Rx := .lits s.data

/-- `\s+` -/
def wsp : Rx := .rep1 PyStr.pyIsSpace
/-- `\s*` -/
def wsStar : Rx := .rep PyStr.pyIsSpace false
/-- `\w+` -/
def wrd : Rx := .rep1 isWordC
/-- `.*` -/
def dotStar : Rx := .rep isAnyC false
/-- `.*?` -/
def dotStarLz : Rx := .rep isAnyC true
/-- `.+` -/
def dotPlus : Rx := .rep1 isAnyC
/-- `\S+` -/
def nsPlus : Rx := .rep1 isNonSpaceC

end Rgx

/-!
Python dict helpers: dicts are modelled as insertion-ordered association
lists.  `max(entries, key=value)` iterates replacing the current best only on
a strictly greater value, so the first entry attaining the maximum wins.
-/

namespace PyDict

def maxGo {κ : Type} (best : κ × ℚ) : List (κ × ℚ) → κ × ℚ
  | [] => best
  | p :: rest => if p.2 > best.2 then maxGo p rest else maxGo best rest

/-- Python `max(d.keys(), key=lambda k: d[k])` on a dict in insertion
order: first key attaining the maximal value. -/
def maxEntry {κ : Type} : List (κ × ℚ) → Option (κ × ℚ)
  | [] => none
  | p :: rest => some (maxGo p rest)

/-- `d[k] = d.get(k, 0) + v`: update in place when present, else append. -/
def bump {κ : Type} [BEq κ] (d : List (κ × ℚ)) (k : κ) (v : ℚ) : List (κ × ℚ) :=
  match d with
  | [] => [(k, v)]
  | p :: rest => if p.1 == k then (p.1, p.2 + v) :: rest else p :: bump rest k v

/-- `if k in d: d[k] += v` (no effect when absent). -/
def bumpIfPresent {κ : Type} [BEq κ] (d : List (κ × ℚ)) (k : κ) (v : ℚ) :
    List (κ × ℚ) :=
  d.map (fun p => if p.1 == k then (p.1, p.2 + v) else p)

/-- `d.get(k, 0)`. -/
def getD0 {κ : Type} [BEq κ] (d : List (κ × ℚ)) (k : κ) : ℚ :=
  match d.find? (fun p => p.1 == k) with
  | some p => p.2
  | none => 0

end PyDict

/-! ## `src/ai/intent.py` — the primary `IntentRecognizer` -/

namespace PyIntent

open PyStr Rgx

/-- `IntentType` enum of `src/ai/intent.py` (member order as declared). -/
inductive IntentType where
  | SUMMARIZE
  | RUN_SCRIPT
  | LIST
  | SHOW
  | PREVIEW
  | RENAME
  | SEARCH
  | HELP
  | EXIT
  | AI_CHAT
  | UNKNOWN
deriving DecidableEq, BEq, Repr

/-- The `Intent` dataclass: `parameters` is a string-keyed dict in insertion
order (all values produced by this engine are strings). -/
structure Intent where
  type : IntentType
  confidence : ℚ
  target : Option String := none
  parameters : List (String × String) := []
  original_input : String := ""
deriving DecidableEq, Repr

/-- `self.file_extensions` (a Python set, used only through `any(...)`). -/
def fileExtensions : List String :=
  [".py", ".sh", ".md", ".txt", ".pdf", ".doc", ".docx"]

/-- One pattern dictionary of `_build_intent_patterns`: the optional keys
`keywords` / `patterns` / `context_keywords` plus the mandatory `weight`. -/
structure PatternSpec where
  keywords : Option (List String) := none
  patterns : Option (List Rx) := none
  contextKeywords : Option (List String) := none
  weight : ℚ

/-- `_build_intent_patterns`: the fallback pattern library, in the dict
literal's key order (which is the iteration order of
`_recognize_with_patterns`). -/
def intentPatternsLib : List (IntentType × List PatternSpec) :=
  [ (.HELP,
     [ { keywords := some ["help", "usage", "how", "what", "commands"],
         weight := 1.0 },
       { patterns := some
           [ catList [.bnd, lit "help", .bnd],           -- \bhelp\b
             catList [.bnd, lit "how to", .bnd],         -- \bhow to\b
             catList [.bnd, lit "what", dotStar, lit "do", .bnd] ],
                                                         -- \bwhat.*do\b
         weight := 0.9 } ]),
    (.EXIT,
     [ { keywords := some ["exit", "quit", "bye", "goodbye"], weight := 1.0 },
       { patterns := some
           [ catList [.bnd, lit "exit", .bnd],           -- \bexit\b
             catList [.bnd, lit "quit", .bnd],           -- \bquit\b
             catList [.bnd, lit "bye", .bnd] ],          -- \bbye\b
         weight := 1.0 } ]),
    (.SUMMARIZE,
     [ { keywords := some ["summarize", "summary", "brief", "overview"],
         weight := 1.0 },
       { patterns := some
           [ catList [.bnd, lit "summarize", .bnd],      -- \bsummarize\b
             catList [.bnd, lit "give", dotStar, lit "summary", .bnd],
                                                         -- \bgive.*summary\b
             catList [.bnd, lit "brief", dotStar, lit "overview", .bnd] ],
                                                         -- \bbrief.*overview\b
         weight := 0.9 },
       { contextKeywords := some ["meeting", "notes", "document", "file", "text"],
         weight := 0.3 } ]),
    (.RUN_SCRIPT,
     [ { keywords := some ["run", "execute", "start", "launch"], weight := 0.8 },
       { patterns := some
           [ catList [.bnd, lit "run", wsp, wrd],        -- \brun\s+\w+
             catList [.bnd, lit "execute", wsp, wrd],    -- \bexecute\s+\w+
             catList [.bnd, lit "start", wsp, wrd] ],    -- \bstart\s+\w+
         weight := 0.9 },
       { contextKeywords := some ["script", "python", "shell", ".py", ".sh"],
         weight := 0.4 } ]),
    (.LIST,
     [ { keywords := some ["list", "show", "display"], weight := 0.7 },
       { patterns := some
           [ catList [.bnd, lit "list", wsp, dotStar, lit "file",
               .opt (lit "s"), .bnd],                    -- \blist\s+.*files?\b
             catList [.bnd, lit "show", wsp, dotStar, lit "file",
               .opt (lit "s"), .bnd],                    -- \bshow\s+.*files?\b
             catList [.bnd, lit "ls", .bnd] ],           -- \bls\b
         weight := 0.9 },
       { contextKeywords := some
           ["files", "scripts", "documents", "all", "directory"],
         weight := 0.4 } ]),
    (.SHOW,
     [ { keywords := some ["show", "display", "view", "open"], weight := 0.7 },
       { patterns := some
           [ catList [.bnd, lit "show", wsp, wrd],       -- \bshow\s+\w+
             catList [.bnd, lit "view", wsp, wrd],       -- \bview\s+\w+
             catList [.bnd, lit "open", wsp, wrd] ],     -- \bopen\s+\w+
         weight := 0.8 },
       { contextKeywords := some ["file", "document", "content"],
         weight := 0.3 } ]),
    (.PREVIEW,
     [ { keywords := some ["preview", "peek", "glimpse"], weight := 1.0 },
       { patterns := some
           [ catList [.bnd, lit "preview", wsp, wrd],    -- \bpreview\s+\w+
             catList [.bnd, lit "peek", wsp, lit "at", wsp, wrd] ],
                                                         -- \bpeek\s+at\s+\w+
         weight := 0.9 } ]),
    (.SEARCH,
     [ { keywords := some ["search", "find", "look", "grep"], weight := 0.9 },
       { patterns := some
           [ catList [.bnd, lit "find", wsp, wrd],       -- \bfind\s+\w+
             catList [.bnd, lit "search", wsp, lit "for", wsp, wrd],
                                                         -- \bsearch\s+for\s+\w+
             catList [.bnd, lit "look", wsp, lit "for", wsp, wrd] ],
                                                         -- \blook\s+for\s+\w+
         weight := 0.9 },
       { contextKeywords := some ["file", "files", "in", "containing"],
         weight := 0.3 } ]),
    (.RENAME,
     [ { keywords := some ["rename", "move", "mv"], weight := 1.0 },
       { patterns := some
           [ catList [.bnd, lit "rename", wsp, wrd],     -- \brename\s+\w+
             catList [.bnd, lit "move", wsp, wrd, dotStar, lit "to", wsp, wrd] ],
                                                         -- \bmove\s+\w+.*to\s+\w+
         weight := 0.9 } ]),
    (.AI_CHAT,
     [ { keywords := some
           ["why", "how", "when", "where", "who", "what", "advice", "tip",
            "recommend"],
         weight := 0.7 },
       { patterns := some
           [ catList [.bnd, lit "why", wsp],             -- \bwhy\s+
             catList [.bnd, lit "how", wsp],             -- \bhow\s+
             catList [.bnd, lit "what", wsp, lit "is", .bnd],
                                                         -- \bwhat\s+is\b
             catList [.bnd, lit "can", wsp, lit "you", .bnd],
                                                         -- \bcan\s+you\b
             catList [.bnd, lit "tell", wsp, lit "me", .bnd] ],
                                                         -- \btell\s+me\b
         weight := 0.8 },
       { contextKeywords := some
           ["explain", "help", "understand", "know", "learn"],
         weight := 0.3 } ]) ]

/-- `_extract_file_target_regex`, word loop: per word, first the
file-extension test, then the underscore/hyphen test. -/
def extractFileTargetWords : List String → Option String
  | [] => none
  | word :: rest =>
    let cleanWord := pyCleanWord word
    if fileExtensions.any (fun ext => pyEndsWith cleanWord ext) then
      some cleanWord
    else if pyIn "_" cleanWord || pyIn "-" cleanWord then
      some cleanWord
    else extractFileTargetWords rest

/-- `_extract_file_target_regex`: scan the whitespace-split words; fall back
to the first quoted substring. -/
def extractFileTargetRegex (userInput : String) : Option String :=
  match extractFileTargetWords (pySplit userInput) with
  | some t => some t
  | none => firstQuoted userInput

def directoryPreps : List String := ["in", "from", "under"]

/-- Directory scan of `_extract_parameters_regex`: the word after the first
`in`/`from`/`under` (when one follows), then break. -/
def findDirectory : List String → Option String
  | w1 :: w2 :: rest =>
    if directoryPreps.contains (pyLower w1) then some w2
    else findDirectory (w2 :: rest)
  | _ => none

/-- `_extract_parameters_regex` (the `target` argument is unused in the
source as well). -/
def extractParametersRegex (userInput : String) (_target : Option String) :
    List (String × String) :=
  let low := pyLower userInput
  let p1 : List (String × String) :=
    if pyIn "pdf" low then [("file_type", "pdf")]
    else if pyIn "python" low || pyIn ".py" low then [("file_type", "python")]
    else if pyIn "shell" low || pyIn ".sh" low then [("file_type", "shell")]
    else if pyIn "markdown" low || pyIn ".md" low then [("file_type", "markdown")]
    else []
  let p2 :=
    if pyIn "all" low then p1 ++ [("scope", "all")]
    else if pyIn "recent" low || pyIn "latest" low then p1 ++ [("scope", "recent")]
    else p1
  match findDirectory (pySplit userInput) with
  | some d => p2 ++ [("directory", d)]
  | none => p2

/-- `_score_keywords`: fraction of the keywords occurring as substrings. -/
def scoreKeywords (text : String) (keywords : List String) : ℚ :=
  if keywords.isEmpty then 0
  else ((keywords.countP (fun k => pyIn k text) : ℕ) : ℚ) / (keywords.length : ℚ)

/-- Loop body of `_score_patterns`: on a match, count it and — when no
target is set yet — take group 1 (when the pattern has groups) or the
second word of the matched text. -/
def scorePatternsStep (text : String) (acc : ℕ × Option String) (p : Rx) :
    ℕ × Option String :=
  match pySearch false p text with
  | some (m, g) =>
    (acc.1 + 1,
     if pyTruthyOpt acc.2 then acc.2
     else if p.ngroups > 0 then getGroup g 1
     else if (pySplit m).length > 1 then (pySplit m).get? 1
     else acc.2)
  | none => acc

/-- `_score_patterns`: fraction of matching patterns, plus the extracted
target. -/
def scorePatterns (text : String) (patterns : List Rx) : ℚ × Option String :=
  let r := patterns.foldl (scorePatternsStep text) ((0 : ℕ), (none : Option String))
  (if patterns.isEmpty then 0 else ((r.1 : ℕ) : ℚ) / (patterns.length : ℚ), r.2)

/-- Loop body of `_calculate_intent_score`: the keyword, pattern and
context-keyword contributions of one pattern dictionary. -/
def intentScoreStep (normalizedInput : String) (acc : ℚ × Option String)
    (pd : PatternSpec) : ℚ × Option String :=
  let acc := match pd.keywords with
    | some ks => (acc.1 + scoreKeywords normalizedInput ks * pd.weight, acc.2)
    | none => acc
  let acc := match pd.patterns with
    | some ps =>
      let pr := scorePatterns normalizedInput ps
      (acc.1 + pr.1 * pd.weight,
       if pyTruthyOpt pr.2 && !pyTruthyOpt acc.2 then pr.2 else acc.2)
    | none => acc
  match pd.contextKeywords with
    | some cs => (acc.1 + scoreKeywords normalizedInput cs * pd.weight, acc.2)
    | none => acc

/-- `_calculate_intent_score`: accumulate keyword / pattern / context
contributions, extract target and parameters, cap the score at `1.0`. -/
def calculateIntentScore (normalizedInput : String) (patterns : List PatternSpec)
    (originalInput : String) : ℚ × Option String × List (String × String) :=
  let st := patterns.foldl (intentScoreStep normalizedInput)
    ((0 : ℚ), (none : Option String))
  let target := if pyTruthyOpt st.2 then st.2 else extractFileTargetRegex originalInput
  let parameters := extractParametersRegex originalInput target
  (min st.1 1, target, parameters)

/-- The `(score, target, params)` triple of every intent type, in the
library's key order — the three dicts built by `_recognize_with_patterns`. -/
def fallbackTriples (userInput : String) :
    List (IntentType × ℚ × Option String × List (String × String)) :=
  intentPatternsLib.map (fun p =>
    (p.1, calculateIntentScore (pyStrip (pyLower userInput)) p.2 userInput))

def fallbackScores (userInput : String) : List (IntentType × ℚ) :=
  (fallbackTriples userInput).map (fun p => (p.1, p.2.1))

/-- `max(intent_scores.keys(), key=...)` with its score; the scores dict
always holds the ten library entries, so `maxEntry` never sees `[]`. -/
def bestFallback (userInput : String) : IntentType × ℚ :=
  (PyDict.maxEntry (fallbackScores userInput)).getD (.UNKNOWN, 0)

/-- `_recognize_with_patterns`. -/
def recognizeWithPatterns (userInput : String) : Intent :=
  let best := bestFallback userInput
  if best.2 < 0.3 then
    { type := .UNKNOWN, confidence := best.2, original_input := userInput }
  else
    let t := (fallbackTriples userInput).find? (fun p => p.1 == best.1)
    { type := best.1
      confidence := best.2
      target := (t.map (fun p => p.2.2.1)).getD none
      parameters := (t.map (fun p => p.2.2.2)).getD []
      original_input := userInput }

end PyIntent

namespace PyIntent

open PyStr Rgx

/-- A spaCy token, restricted to the attributes the source reads:
`token.text`, `token.tag_`, `token.dep_`, `token.head.text`. -/
structure Token where
  text : String
  tag : String
  dep : String
  headText : String
deriving DecidableEq, Repr

/-- A named entity (`doc.ents` element): `entity.text`, `entity.label_`. -/
structure Ent where
  text : String
  label : String
deriving DecidableEq, Repr

/-- The annotated document the `nlp` pipeline produces. -/
structure Doc where
  tokens : List Token
  ents : List Ent
deriving DecidableEq, Repr

/-- One matcher result `(match_id, start, end)`; `name` is
`self.nlp.vocab.strings[match_id]`. -/
structure SMatch where
  name : String
  start : Nat
  stop : Nat
deriving DecidableEq, Repr

/-- `_map_spacy_intent`. -/
def mapSpacyIntent (name : String) : IntentType :=
  if name == "HELP" then .HELP
  else if name == "EXIT" then .EXIT
  else if name == "RUN_SCRIPT" then .RUN_SCRIPT
  else if name == "LIST" then .LIST
  else if name == "SHOW" then .SHOW
  else if name == "SEARCH" then .SEARCH
  else if name == "SUMMARIZE" then .SUMMARIZE
  else if name == "RENAME" then .RENAME
  else if name == "AI_CHAT" then .AI_CHAT
  else .UNKNOWN

/-- Order in which `_setup_spacy_patterns` registers the pattern groups
with the matcher. -/
def spacyRegistration : List IntentType :=
  [.HELP, .EXIT, .RUN_SCRIPT, .LIST, .SHOW, .SEARCH, .SUMMARIZE, .RENAME,
   .AI_CHAT]

/-- Key order of the `_build_intent_patterns` dict literal — the
registration order of the fallback library. -/
def registrationOrder : List IntentType :=
  [.HELP, .EXIT, .SUMMARIZE, .RUN_SCRIPT, .LIST, .SHOW, .PREVIEW, .SEARCH,
   .RENAME, .AI_CHAT]

def questionWords : List String :=
  ["what", "why", "how", "when", "where", "who", "which"]

def helpIndicators : List String :=
  ["please", "can you", "could you", "help me", "i need"]

def uncertaintyWords : List String :=
  ["maybe", "perhaps", "possibly", "might", "could", "unsure"]

def scopeWords : List String := ["all", "every", "recent", "latest", "new"]

/-- `[a-zA-Z_-]` -/
def isFileAlpha (c : Char) : Bool :=
  ('a' ≤ c && c ≤ 'z') || ('A' ≤ c && c ≤ 'Z') || c == '_' || c == '-'

/-- `[a-zA-Z0-9_-]` -/
def isFileWord (c : Char) : Bool := isFileAlpha c || ('0' ≤ c && c ≤ '9')

/-- `^[a-zA-Z_-]+[a-zA-Z0-9_-]*$` -/
def fileLikeRx : Rx := catList [.rep1 isFileAlpha, .rep isFileWord false, .eos]

/-- `_find_file_entities`: tokens ending in a known extension, or matching
the file-like pattern while containing an underscore or hyphen. -/
def findFileEntities (doc : Doc) : List String :=
  doc.tokens.filterMap (fun t =>
    if fileExtensions.any (fun ext => pyEndsWith t.text ext) then some t.text
    else if (pyMatchA false fileLikeRx t.text).isSome &&
        (pyIn "_" t.text || pyIn "-" t.text) then some t.text
    else none)

/-- First block of `_enhance_scores_with_linguistics`: interrogative words
lean toward AI_CHAT (`intent_scores[AI_CHAT] = intent_scores.get(AI_CHAT, 0) + 0.4`). -/
def enhanceQuestion (doc : Doc) (d : List (IntentType × ℚ)) :
    List (IntentType × ℚ) :=
  if doc.tokens.any (fun t => questionWords.contains (pyLower t.text)) then
    PyDict.bump d .AI_CHAT 0.4
  else d

/-- Second block: a `VB`-tagged token boosts the action intents already
present in the scores dict by 0.2. -/
def enhanceImperative (doc : Doc) (d : List (IntentType × ℚ)) :
    List (IntentType × ℚ) :=
  if doc.tokens.any (fun t => t.tag == "VB") then
    [IntentType.RUN_SCRIPT, .LIST, .SHOW, .SEARCH].foldl
      (fun d k => PyDict.bumpIfPresent d k 0.2) d
  else d

/-- Third block: file-related entities boost the file intents already
present by 0.3. -/
def enhanceFileEnts (doc : Doc) (d : List (IntentType × ℚ)) :
    List (IntentType × ℚ) :=
  if !(findFileEntities doc).isEmpty then
    [IntentType.RUN_SCRIPT, .SHOW, .SUMMARIZE].foldl
      (fun d k => PyDict.bumpIfPresent d k 0.3) d
  else d

/-- Fourth block: request/help phrases lean toward AI_CHAT by 0.3. -/
def enhanceHelp (userInput : String) (d : List (IntentType × ℚ)) :
    List (IntentType × ℚ) :=
  if helpIndicators.any (fun p => pyIn p (pyLower userInput)) then
    PyDict.bump d .AI_CHAT 0.3
  else d

/-- `_enhance_scores_with_linguistics`: the four conditional score boosts,
applied to the scores dict in order. -/
def enhanceScores (doc : Doc) (scores0 : List (IntentType × ℚ))
    (userInput : String) : List (IntentType × ℚ) :=
  enhanceHelp userInput (enhanceFileEnts doc (enhanceImperative doc
    (enhanceQuestion doc scores0)))

/-- The conversational regexes of `_analyze_for_ai_chat`. -/
def conversationalPatterns : List Rx :=
  [ catList [.bnd, lit "i", wsp,            -- \bi\s+(am|was|have|need|want|would|like)
      .grp 1 (altL [lit "am", lit "was", lit "have", lit "need", lit "want",
                    lit "would", lit "like"])],
    catList [.bnd, lit "can", wsp, lit "you"],        -- \bcan\s+you
    catList [.bnd, lit "what", wsp,                   -- \bwhat\s+(is|are|do|does)
      .grp 1 (altL [lit "is", lit "are", lit "do", lit "does"])],
    catList [.bnd, lit "how", wsp,                    -- \bhow\s+(do|can|should)
      .grp 1 (altL [lit "do", lit "can", lit "should"])],
    catList [.bnd, lit "tell", wsp, lit "me"],        -- \btell\s+me
    catList [.bnd, lit "explain"],                    -- \bexplain
    catList [.bnd, lit "advice"],                     -- \badvice
    catList [.bnd, lit "tip"],                        -- \btip
    catList [.bnd, lit "help", wsp, lit "with"] ]     -- \bhelp\s+with

/-- The `conversational_score` accumulation of `_analyze_for_ai_chat`:
0.2 per conversational pattern found in the lowercased input. -/
def conversationalScore (low : String) : ℚ :=
  conversationalPatterns.foldl
    (fun s p => if (pySearch false p low).isSome then s + 0.2 else s) (0 : ℚ)

/-- `_analyze_for_ai_chat` (its `doc` argument is unused in the source as
well): 0.2 per conversational pattern, 0.3 for a trailing question mark,
0.2 for an uncertainty word; AI_CHAT capped at 0.9 when ≥ 0.4, else
UNKNOWN with the raw score. -/
def analyzeForAiChat (_doc : Doc) (userInput : String) : IntentType × ℚ :=
  let s1 := conversationalScore (pyLower userInput)
  let s2 := if pyEndsWith (pyStrip userInput) "?" then s1 + 0.3 else s1
  let s3 := if uncertaintyWords.any (fun w => pyIn w (pyLower userInput)) then
    s2 + 0.2 else s2
  if s3 ≥ 0.4 then (.AI_CHAT, min s3 0.9) else (.UNKNOWN, s3)

def fileTypeMapping : List (String × String) :=
  [("python", "python"), ("shell", "shell"), ("markdown", "markdown"),
   ("pdf", "pdf"), ("text", "text")]

/-- `parameters[k] = v` on a string-keyed dict. -/
def setParam (d : List (String × String)) (k v : String) :
    List (String × String) :=
  match d with
  | [] => [(k, v)]
  | p :: rest => if p.1 == k then (k, v) :: rest else p :: setParam rest k v

/-- `_extract_entities_with_spacy`. -/
def extractEntitiesWithSpacy (doc : Doc) (userInput : String) :
    Option String × List (String × String) :=
  let fileEnts := findFileEntities doc
  let target0 : Option String := fileEnts.head?
  let params1 := doc.ents.foldl
    (fun d e =>
      if (e.label == "ORG" || e.label == "PRODUCT") &&
          (fileTypeMapping.lookup (pyLower e.text)).isSome then
        setParam d "file_type" ((fileTypeMapping.lookup (pyLower e.text)).getD "")
      else d)
    ([] : List (String × String))
  let params2 :=
    match doc.tokens.find? (fun t => scopeWords.contains (pyLower t.text)) with
    | some t => setParam params1 "scope" (pyLower t.text)
    | none => params1
  let params3 := doc.tokens.foldl
    (fun d t =>
      if (t.dep == "prep" || t.dep == "pobj") &&
          directoryPreps.contains (pyLower t.headText) then
        setParam d "directory" t.text
      else d)
    params2
  let target := if pyTruthyOpt target0 then target0
    else extractFileTargetRegex userInput
  let fallbackParams := extractParametersRegex userInput target
  let params4 := fallbackParams.foldl
    (fun d kv => if (d.lookup kv.1).isSome then d else d ++ [kv]) params3
  (target, params4)

/-- The scores dict of `_recognize_with_spacy`: 0.8 per matcher hit
(accumulated in match order), then the linguistic boosts. -/
def spacyScores (doc : Doc) (matchList : List SMatch) (userInput : String) :
    List (IntentType × ℚ) :=
  let scores0 := matchList.foldl
    (fun d m => PyDict.bump d (mapSpacyIntent m.name) 0.8)
    ([] : List (IntentType × ℚ))
  enhanceScores doc scores0 userInput

/-- Best intent and confidence of `_recognize_with_spacy`: the first
maximal entry of the scores dict capped at 1.0, or `_analyze_for_ai_chat`
when no pattern matched. -/
def spacyBest (doc : Doc) (matchList : List SMatch) (userInput : String) :
    IntentType × ℚ :=
  match PyDict.maxEntry (spacyScores doc matchList userInput) with
  | some p => (p.1, min p.2 1)
  | none => analyzeForAiChat doc userInput

/-- `_recognize_with_spacy`. -/
def recognizeWithSpacy (doc : Doc) (matchList : List SMatch)
    (userInput : String) : Intent :=
  let tp := extractEntitiesWithSpacy doc userInput
  let best := spacyBest doc matchList userInput
  if best.2 < 0.3 then
    { type := .UNKNOWN, confidence := best.2, original_input := userInput }
  else
    { type := best.1
      confidence := best.2
      target := tp.1
      parameters := tp.2
      original_input := userInput }

/-- `recognize`: the guard for empty/whitespace input, then dispatch on
`use_spacy`.  The optional spaCy pipeline and matcher are modelled as
injected functions producing the annotated `Doc` and the matcher output. -/
def recognize (nlp : String → Doc) (matcher : Doc → List SMatch)
    (useSpacy : Bool) (userInput : String) : Intent :=
  if userInput == "" || pyStrip userInput == "" then
    { type := .UNKNOWN, confidence := 0.0, original_input := userInput }
  else if useSpacy then
    recognizeWithSpacy (nlp userInput) (matcher (nlp userInput)) userInput
  else
    recognizeWithPatterns userInput

end PyIntent

/-! ## `src/ai/__init__.py` — the second, diverging `IntentRecognizer` -/

namespace PyInit

open PyStr Rgx

/-- `IntentType` enum of `src/ai/__init__.py` (member order as declared). -/
inductive IntentType where
  | RUN
  | LIST
  | SEARCH
  | HELP
  | EXIT
  | CREATE
  | DELETE
  | ORGANIZE
  | UNKNOWN
  | AI_CHAT
deriving DecidableEq, BEq, Repr

/-- The `Intent` dataclass of this version (`params` defaults to the empty
dict via `__post_init__`). -/
structure Intent where
  type : IntentType
  confidence : ℚ
  params : List (String × String) := []
  original_text : String := ""
deriving DecidableEq, Repr

/-- `_setup_fallback_patterns`, in the dict literal's key order.  All
patterns are applied with `re.match` (anchored) and `re.IGNORECASE`. -/
def fallbackPatterns : List (IntentType × List Rx) :=
  [ (.RUN,
     [ -- ^(?:run|execute|start)\s+(.+)$
       catList [altL [lit "run", lit "execute", lit "start"], wsp,
                .grp 1 dotPlus, .eos],
       -- ^python\s+(\S+\.py)(?:\s+(.+))?$
       catList [lit "python", wsp, .grp 1 (catList [nsPlus, lit ".py"]),
                .opt (catList [wsp, .grp 2 dotPlus]), .eos],
       -- ^\.\/(\S+\.sh)(?:\s+(.+))?$
       catList [lit "./", .grp 1 (catList [nsPlus, lit ".sh"]),
                .opt (catList [wsp, .grp 2 dotPlus]), .eos] ]),
    (.LIST,
     [ -- ^(?:list|show|display|ls|dir)\s*(.*?)$
       catList [altL [lit "list", lit "show", lit "display", lit "ls", lit "dir"],
                wsStar, .grp 1 dotStarLz, .eos] ]),
    (.SEARCH,
     [ -- ^(?:search|find|locate|grep)\s+(.+)$
       catList [altL [lit "search", lit "find", lit "locate", lit "grep"], wsp,
                .grp 1 dotPlus, .eos] ]),
    (.HELP,
     [ -- ^(?:help|--help|man|manual|guide)(?:\s+(.+))?$
       catList [altL [lit "help", lit "--help", lit "man", lit "manual",
                      lit "guide"],
                .opt (catList [wsp, .grp 1 dotPlus]), .eos],
       -- ^(?:how\s+to|what\s+is|how\s+do\s+i)\s+(.+)$
       catList [altL [catList [lit "how", wsp, lit "to"],
                      catList [lit "what", wsp, lit "is"],
                      catList [lit "how", wsp, lit "do", wsp, lit "i"]],
                wsp, .grp 1 dotPlus, .eos] ]),
    (.EXIT,
     [ -- ^(?:exit|quit|bye|goodbye)$
       catList [altL [lit "exit", lit "quit", lit "bye", lit "goodbye"], .eos],
       -- ^close\s+terminal$
       catList [lit "close", wsp, lit "terminal", .eos] ]),
    (.CREATE,
     [ -- ^(?:create|make|new|add|touch)\s+(.+)$
       catList [altL [lit "create", lit "make", lit "new", lit "add",
                      lit "touch"],
                wsp, .grp 1 dotPlus, .eos] ]),
    (.DELETE,
     [ -- ^(?:delete|remove|rm|trash|erase)\s+(.+)$
       catList [altL [lit "delete", lit "remove", lit "rm", lit "trash",
                      lit "erase"],
                wsp, .grp 1 dotPlus, .eos] ]),
    (.ORGANIZE,
     [ -- ^(?:organize|sort|categorize|clean\s+up|arrange)\s*(.*?)$
       catList [altL [lit "organize", lit "sort", lit "categorize",
                      catList [lit "clean", wsp, lit "up"], lit "arrange"],
                wsStar, .grp 1 dotStarLz, .eos] ]),
    (.AI_CHAT,
     [ -- ^(?!run|list|search|help|exit|create|delete|organize|ls|dir|python|find|grep).*\?$
       catList [.nla (["run", "list", "search", "help", "exit", "create",
                       "delete", "organize", "ls", "dir", "python", "find",
                       "grep"].map (fun s => s.data)),
                dotStar, lit "?", .eos],
       -- ^(?:tell\s+me|explain|describe|what|how|who|when|why|where)\s+(.+)$
       catList [altL [catList [lit "tell", wsp, lit "me"], lit "explain",
                      lit "describe", lit "what", lit "how", lit "who",
                      lit "when", lit "why", lit "where"],
                wsp, .grp 1 dotPlus, .eos],
       -- ^(?:can\s+you|could\s+you|would\s+you)\s+(.+)$
       catList [altL [catList [lit "can", wsp, lit "you"],
                      catList [lit "could", wsp, lit "you"],
                      catList [lit "would", wsp, lit "you"]],
                wsp, .grp 1 dotPlus, .eos] ]) ]

/-- `parameters[k] = v` on a string-keyed dict. -/
def setParam (d : List (String × String)) (k v : String) :
    List (String × String) :=
  match d with
  | [] => [(k, v)]
  | p :: rest => if p.1 == k then (k, v) :: rest else p :: setParam rest k v

/-- The group-based parameter extraction of `_recognize_with_patterns`,
guarded by `if match.groups():` (a nonempty tuple, i.e. the pattern has
groups).  Group 1 always participates in the patterns whose branches read
it unconditionally. -/
def matchParams (intentType : IntentType) (p : Rx) (g : Groups) :
    List (String × String) :=
  if p.ngroups == 0 then []
  else
    match intentType with
    | .RUN =>
      let p1 := [("script_name", (getGroup g 1).getD "")]
      if p.ngroups > 1 && pyTruthyOpt (getGroup g 2) then
        p1 ++ [("args", (getGroup g 2).getD "")]
      else p1
    | .LIST =>
      if pyTruthyOpt (getGroup g 1) then
        let pf := (getGroup g 1).getD ""
        if pyIn "/" pf then [("path", pf)] else [("filter", pf)]
      else []
    | .SEARCH => [("query", (getGroup g 1).getD "")]
    | .HELP =>
      if p.ngroups > 0 && pyTruthyOpt (getGroup g 1) then
        [("topic", (getGroup g 1).getD "")]
      else []
    | .CREATE => [("name", (getGroup g 1).getD "")]
    | .DELETE => [("name", (getGroup g 1).getD "")]
    | .AI_CHAT =>
      if p.ngroups > 0 && pyTruthyOpt (getGroup g 1) then
        [("query", (getGroup g 1).getD "")]
      else []
    | _ => []

/-- The pattern loop of `_recognize_with_patterns`: first matching pattern
(in dict order, then pattern order) wins, with confidence 0.6. -/
def loopMatch (text : String) : Option Intent :=
  fallbackPatterns.findSome? (fun ip =>
    ip.2.findSome? (fun p =>
      match pyMatchA true p text with
      | some (_m, g) =>
        some { type := ip.1
               confidence := 0.6
               params := matchParams ip.1 p g
               original_text := text }
      | none => none))

/-- The `startswith` tuple of the post-loop question check. -/
def interrogativeLeads : List String :=
  ["what", "how", "why", "when", "where", "who", "can", "could"]

/-- The post-loop default of `_recognize_with_patterns`: AI_CHAT at 0.5 for
question-like input, else UNKNOWN at 0.0. -/
def tailFallback (text : String) : Intent :=
  if pyIn "?" text || pyStartsWithAny (pyLower text) interrogativeLeads then
    { type := .AI_CHAT
      confidence := 0.5
      params := [("query", text)]
      original_text := text }
  else
    { type := .UNKNOWN, confidence := 0.0, original_text := text }

/-- `_recognize_with_patterns` of `src/ai/__init__.py`. -/
def recognizeWithPatterns (text : String) : Intent :=
  match loopMatch text with
  | some i => i
  | none => tailFallback text

/-- `_extract_entities_from_doc` (only `token.text` is read, so a document
is a token-text list here). -/
def fileTypes : List String :=
  ["python", "shell", "text", "markdown", "md", "py", "sh", "txt"]

def extractEntitiesFromDoc (tokens : List String) : List (String × String) :=
  let p1 := match tokens.find? (fun t => pyEndsWith t ".py" || pyEndsWith t ".sh") with
    | some t => [("script_name", t)]
    | none => []
  let p2 := match tokens.find? (fun t => pyStartsWith t "./" || pyStartsWith t "/") with
    | some t => p1 ++ [("path", t)]
    | none => p1
  match tokens.find? (fun t => fileTypes.contains (pyLower t)) with
  | some t => p2 ++ [("file_type", pyLower t)]
  | none => p2

/-- `(\S+\.(py|sh))` of `_extract_params_from_text` (case-sensitive,
unanchored search; `group(0)` is read). -/
def scriptNameRx : Rx :=
  .grp 1 (catList [nsPlus, lit ".", .grp 2 (altL [lit "py", lit "sh"])])

/-- `_extract_params_from_text`. -/
def extractParamsFromText (intentType : IntentType) (text : String) :
    List (String × String) :=
  match intentType with
  | .RUN =>
    (match pySearch false scriptNameRx text with
     | some (m, _g) =>
       let p1 := [("script_name", m)]
       (match pySplitOnce m text with
        | some (_before, after) =>
          let args := pyStrip after
          if !args.isEmpty then p1 ++ [("args", args)] else p1
        | none => p1)
     | none => [])
  | .LIST =>
    let words := (pySplit text).drop 1
    if !words.isEmpty then
      let pf := String.intercalate " " words
      if pyIn "/" pf then [("path", pf)] else [("filter", pf)]
    else []
  | .SEARCH =>
    let words := (pySplit text).drop 1
    if !words.isEmpty then [("query", String.intercalate " " words)] else []
  | _ => []

/-- One matcher result `(match_id, start, end)`. -/
structure SMatch where
  name : String
  start : Nat
  stop : Nat
deriving DecidableEq, Repr

/-- `IntentType[label]` — lookup by enum member name (`KeyError` → `none`). -/
def nameToType (label : String) : Option IntentType :=
  if label == "RUN" then some .RUN
  else if label == "LIST" then some .LIST
  else if label == "SEARCH" then some .SEARCH
  else if label == "HELP" then some .HELP
  else if label == "EXIT" then some .EXIT
  else if label == "CREATE" then some .CREATE
  else if label == "DELETE" then some .DELETE
  else if label == "ORGANIZE" then some .ORGANIZE
  else if label == "UNKNOWN" then some .UNKNOWN
  else if label == "AI_CHAT" then some .AI_CHAT
  else none

/-- The question-token list of `_recognize_with_spacy`. -/
def interrogativeTokens : List String :=
  ["what", "how", "who", "when", "why", "where", "can", "could", "would"]

/-- `max(matches, key=lambda x: x[1])` — first maximum wins. -/
def maxByStart (m : SMatch) : List SMatch → SMatch
  | [] => m
  | x :: rest => if x.start > m.start then maxByStart x rest else maxByStart m rest

/-- `_recognize_with_spacy` of `src/ai/__init__.py`, over the modelled
pipeline output (token texts and matcher results). -/
def recognizeWithSpacy (tokens : List String) (matchList : List SMatch)
    (text : String) : Intent :=
  match matchList with
  | [] =>
    if pyEndsWith text "?" ||
        tokens.any (fun t => interrogativeTokens.contains (pyLower t)) then
      { type := .AI_CHAT, confidence := 0.7, original_text := text }
    else
      { type := .UNKNOWN, confidence := 0.0, original_text := text }
  | m :: rest =>
    let best := maxByStart m rest
    let tc : IntentType × ℚ :=
      match nameToType best.name with
      | some t => (t, 0.8)
      | none => (.UNKNOWN, 0.3)
    let params := extractEntitiesFromDoc tokens
    let additional := extractParamsFromText tc.1 text
    let merged := additional.foldl (fun d kv => setParam d kv.1 kv.2) params
    { type := tc.1, confidence := tc.2, params := merged, original_text := text }

/-- `recognize` of `src/ai/__init__.py`: strip, empty guard, spaCy attempt
(falling through on UNKNOWN), then pattern matching. -/
def recognize (nlp : String → List String) (matcher : List String → List SMatch)
    (spacyAvailable : Bool) (text : String) : Intent :=
  let t := pyStrip text
  if t.isEmpty then
    { type := .UNKNOWN, confidence := 0.0, original_text := t }
  else if spacyAvailable then
    let i := recognizeWithSpacy (nlp t) (matcher (nlp t)) t
    if i.type != .UNKNOWN then i else recognizeWithPatterns t
  else recognizeWithPatterns t

end PyInit

/-! ## The caller-side confidence gate (`superhuman_terminal.py`) -/

namespace Terminal

/-- What `SuperhumanTerminal.handle_intent` does with an intent, as a
function of its confidence (identical in `src/ai_tools/superhuman_terminal.py`
and `src/src/ai_script_inventory/superhuman_terminal.py`). -/
inductive GateAction where
  /-- `confidence < 0.3`: do not execute, prompt the user to rephrase -/
  | rephrase
  /-- `0.3 ≤ confidence < 0.5`: ask a yes/no confirmation before executing -/
  | confirmFirst
  /-- `confidence ≥ 0.5`: dispatch to the handler without confirmation -/
  | execute
deriving DecidableEq, Repr

/-- The two threshold checks at the top of `handle_intent`. -/
def handleIntentGate (confidence : ℚ) : GateAction :=
  if confidence < 0.3 then .rephrase
  else if confidence < 0.5 then .confirmFirst
  else .execute

end Terminal

/-! ## Auxiliary lemmas -/

theorem stripBoth_eq_nil {p : Char → Bool} {l : List Char}
    (h : ∀ c ∈ l, p c = true) : PyStr.stripBoth p l = [] := by
  have h1 : l.dropWhile p = [] := List.dropWhile_eq_nil_iff.mpr h
  simp [PyStr.stripBoth, h1]

theorem pyStrip_eq_empty {s : String} (h : ∀ c ∈ s.data, PyStr.pyIsSpace c = true) :
    PyStr.pyStrip s = "" := by
  unfold PyStr.pyStrip
  rw [stripBoth_eq_nil h]

namespace PyDict

theorem maxGo_mem {κ : Type} (b : κ × ℚ) (l : List (κ × ℚ)) :
    maxGo b l = b ∨ maxGo b l ∈ l := by
  induction l generalizing b with
  | nil => left; rfl
  | cons x rest ih =>
    unfold maxGo
    split
    · rcases ih x with h | h
      · right; rw [h]; exact List.mem_cons_self _ _
      · right; exact List.mem_cons_of_mem _ h
    · rcases ih b with h | h
      · left; exact h
      · right; exact List.mem_cons_of_mem _ h

theorem maxGo_snd_ge {κ : Type} (b : κ × ℚ) (l : List (κ × ℚ)) :
    b.2 ≤ (maxGo b l).2 := by
  induction l generalizing b with
  | nil => simp [maxGo]
  | cons x rest ih =>
    unfold maxGo
    split
    · next hgt => exact le_trans (le_of_lt hgt) (ih x)
    · exact ih b

/-- The Python `max` loop picks a maximal entry, and everything strictly
before it in iteration order is strictly smaller (first maximum wins). -/
theorem maxGo_decomp {κ : Type} (l : List (κ × ℚ)) (b : κ × ℚ) :
    ∃ l1 l2, b :: l = l1 ++ maxGo b l :: l2 ∧
      (∀ q ∈ l1, q.2 < (maxGo b l).2) ∧ (∀ q ∈ l2, q.2 ≤ (maxGo b l).2) := by
  induction l generalizing b with
  | nil => exact ⟨[], [], by simp [maxGo], by simp, by simp⟩
  | cons x rest ih =>
    unfold maxGo
    split
    · next hgt =>
      obtain ⟨l1, l2, heq, h1, h2⟩ := ih x
      refine ⟨b :: l1, l2, ?_, ?_, h2⟩
      · rw [List.cons_append, ← heq]
      · intro q hq
        rcases List.mem_cons.mp hq with rfl | hq
        · exact lt_of_lt_of_le hgt (maxGo_snd_ge x rest)
        · exact h1 q hq
    · next hng =>
      have hxle : x.2 ≤ b.2 := le_of_not_lt hng
      obtain ⟨l1, l2, heq, h1, h2⟩ := ih b
      cases l1 with
      | nil =>
        simp only [List.nil_append] at heq
        have hb : b = maxGo b rest := (List.cons_eq_cons.mp heq).1
        have hl : rest = l2 := (List.cons_eq_cons.mp heq).2
        refine ⟨[], x :: rest, ?_, by simp, ?_⟩
        · simp [← hb]
        · intro q hq
          rcases List.mem_cons.mp hq with rfl | hq
          · rw [← hb]; exact hxle
          · exact h2 q (hl ▸ hq)
      | cons y l1' =>
        have hy : y = b := by
          have := (List.cons_eq_cons.mp (by simpa using heq)).1
          exact this.symm
        have hrest : rest = l1' ++ maxGo b rest :: l2 := by
          have := (List.cons_eq_cons.mp (by simpa using heq)).2
          exact this
        refine ⟨b :: x :: l1', l2, ?_, ?_, h2⟩
        · conv_lhs => rw [hrest]
          simp
        · intro q hq
          have hblt : b.2 < (maxGo b rest).2 := by
            have := h1 y (List.mem_cons_self _ _)
            rwa [hy] at this
          rcases List.mem_cons.mp hq with rfl | hq
          · exact hblt
          · rcases List.mem_cons.mp hq with rfl | hq
            · exact lt_of_le_of_lt hxle hblt
            · exact h1 q (List.mem_cons_of_mem _ hq)

theorem maxEntry_eq_none {κ : Type} {l : List (κ × ℚ)}
    (h : maxEntry l = none) : l = [] := by
  cases l with
  | nil => rfl
  | cons x rest => simp [maxEntry] at h

theorem maxEntry_mem {κ : Type} {l : List (κ × ℚ)} {p : κ × ℚ}
    (h : maxEntry l = some p) : p ∈ l := by
  cases l with
  | nil => simp [maxEntry] at h
  | cons x rest =>
    have h2 : maxGo x rest = p := by simpa [maxEntry] using h
    rcases maxGo_mem x rest with h3 | h3
    · rw [← h2, h3]; exact List.mem_cons_self _ _
    · rw [← h2]; exact List.mem_cons_of_mem _ h3

theorem bump_nonneg {κ : Type} [BEq κ] {d : List (κ × ℚ)} {k : κ} {v : ℚ}
    (hd : ∀ p ∈ d, 0 ≤ p.2) (hv : 0 ≤ v) :
    ∀ p ∈ bump d k v, 0 ≤ p.2 := by
  induction d with
  | nil =>
    intro p hp
    simp only [bump, List.mem_singleton] at hp
    rw [hp]
    exact hv
  | cons x rest ih =>
    intro p hp
    unfold bump at hp
    split at hp
    · rcases List.mem_cons.mp hp with rfl | hp
      · have := hd x (List.mem_cons_self _ _)
        exact add_nonneg this hv
      · exact hd p (List.mem_cons_of_mem _ hp)
    · rcases List.mem_cons.mp hp with rfl | hp
      · exact hd p (List.mem_cons_self _ _)
      · exact ih (fun q hq => hd q (List.mem_cons_of_mem _ hq)) p hp

theorem bumpIfPresent_nonneg {κ : Type} [BEq κ] {d : List (κ × ℚ)} {k : κ}
    {v : ℚ} (hd : ∀ p ∈ d, 0 ≤ p.2) (hv : 0 ≤ v) :
    ∀ p ∈ bumpIfPresent d k v, 0 ≤ p.2 := by
  intro p hp
  obtain ⟨q, hq, hpq⟩ := List.mem_map.mp hp
  by_cases hk : (q.1 == k) = true
  · simp only [bumpIfPresent, hk, if_pos] at hpq
    rw [← hpq]
    exact add_nonneg (hd q hq) hv
  · simp only [bumpIfPresent, hk] at hpq
    simp at hpq
    rw [← hpq]
    exact hd q hq

theorem foldl_bumpIfPresent_nonneg {κ : Type} [BEq κ] (ks : List κ) (v : ℚ)
    (hv : 0 ≤ v) :
    ∀ d : List (κ × ℚ), (∀ p ∈ d, 0 ≤ p.2) →
      ∀ p ∈ ks.foldl (fun d k => bumpIfPresent d k v) d, 0 ≤ p.2 := by
  induction ks with
  | nil => intro d hd; simpa using hd
  | cons k rest ih =>
    intro d hd
    exact ih _ (bumpIfPresent_nonneg hd hv)

theorem foldl_bump_nonneg {α κ : Type} [BEq κ] {v : ℚ} (hv : 0 ≤ v)
    (f : α → κ) :
    ∀ (ms : List α) (d : List (κ × ℚ)), (∀ p ∈ d, 0 ≤ p.2) →
      ∀ p ∈ ms.foldl (fun d m => bump d (f m) v) d, 0 ≤ p.2 := by
  intro ms
  induction ms with
  | nil => intro d hd; simpa using hd
  | cons m rest ih =>
    intro d hd
    exact ih _ (bump_nonneg hd hv)

end PyDict

namespace PyIntent

open PyStr Rgx

theorem scoreKeywords_nonneg (t : String) (ks : List String) :
    0 ≤ scoreKeywords t ks := by
  unfold scoreKeywords
  split
  · exact le_refl 0
  · positivity

theorem scoreKeywords_le_one (t : String) (ks : List String) :
    scoreKeywords t ks ≤ 1 := by
  unfold scoreKeywords
  split
  · exact zero_le_one
  · next h =>
    have hne : ks ≠ [] := by simpa using h
    have hlen : (0 : ℚ) < (ks.length : ℚ) := by
      exact_mod_cast List.length_pos.mpr hne
    rw [div_le_one hlen]
    exact_mod_cast List.countP_le_length _

theorem scorePatternsStep_fst (text : String) (acc : ℕ × Option String)
    (p : Rx) :
    (scorePatternsStep text acc p).1 = acc.1 ∨
      (scorePatternsStep text acc p).1 = acc.1 + 1 := by
  unfold scorePatternsStep
  cases hs : pySearch false p text with
  | none => left; rfl
  | some mg => right; rfl

theorem scorePatterns_count_le (text : String) (ps : List Rx) :
    ∀ acc : ℕ × Option String,
      (ps.foldl (scorePatternsStep text) acc).1 ≤ acc.1 + ps.length := by
  induction ps with
  | nil => intro acc; simp
  | cons p rest ih =>
    intro acc
    have h1 := scorePatternsStep_fst text acc p
    have h2 := ih (scorePatternsStep text acc p)
    simp only [List.foldl_cons, List.length_cons]
    rcases h1 with h | h <;> omega

theorem scorePatterns_fst_nonneg (text : String) (ps : List Rx) :
    0 ≤ (scorePatterns text ps).1 := by
  unfold scorePatterns
  dsimp only
  split
  · exact le_refl 0
  · positivity

theorem scorePatterns_fst_le_one (text : String) (ps : List Rx) :
    (scorePatterns text ps).1 ≤ 1 := by
  unfold scorePatterns
  dsimp only
  split
  · exact zero_le_one
  · next h =>
    have hne : ps ≠ [] := by simpa using h
    have hlen : (0 : ℚ) < (ps.length : ℚ) := by
      exact_mod_cast List.length_pos.mpr hne
    rw [div_le_one hlen]
    have := scorePatterns_count_le text ps ((0 : ℕ), (none : Option String))
    exact_mod_cast by simpa using this

theorem intentScoreStep_fst_ge (n : String) (acc : ℚ × Option String)
    (pd : PatternSpec) (hw : 0 ≤ pd.weight) :
    acc.1 ≤ (intentScoreStep n acc pd).1 := by
  have hkw : ∀ ks, 0 ≤ scoreKeywords n ks * pd.weight :=
    fun ks => mul_nonneg (scoreKeywords_nonneg n ks) hw
  have hps : ∀ ps, 0 ≤ (scorePatterns n ps).1 * pd.weight :=
    fun ps => mul_nonneg (scorePatterns_fst_nonneg n ps) hw
  unfold intentScoreStep
  rcases hk : pd.keywords with _ | ks <;>
    rcases hp : pd.patterns with _ | ps <;>
    rcases hc : pd.contextKeywords with _ | cs <;>
    simp only [hk, hp, hc] <;>
    (try dsimp only) <;>
    first
      | linarith [hkw ks, hps ps, hkw cs]
      | linarith [hkw ks, hps ps]
      | linarith [hkw ks, hkw cs]
      | linarith [hps ps, hkw cs]
      | linarith [hkw ks]
      | linarith [hps ps]
      | linarith [hkw cs]
      | linarith

theorem foldl_intentScore_fst_nonneg (n : String) (specs : List PatternSpec)
    (hw : ∀ sp ∈ specs, 0 ≤ sp.weight) :
    ∀ acc : ℚ × Option String, 0 ≤ acc.1 →
      0 ≤ (specs.foldl (intentScoreStep n) acc).1 := by
  induction specs with
  | nil => intro acc h; simpa using h
  | cons pd rest ih =>
    intro acc h
    have h1 := intentScoreStep_fst_ge n acc pd (hw pd (List.mem_cons_self _ _))
    exact ih (fun sp hsp => hw sp (List.mem_cons_of_mem _ hsp)) _ (le_trans h h1)

theorem calculateIntentScore_fst_nonneg (n : String) (specs : List PatternSpec)
    (o : String) (hw : ∀ sp ∈ specs, 0 ≤ sp.weight) :
    0 ≤ (calculateIntentScore n specs o).1 := by
  unfold calculateIntentScore
  dsimp only
  exact le_min (foldl_intentScore_fst_nonneg n specs hw _ (le_refl 0)) zero_le_one

theorem calculateIntentScore_fst_le_one (n : String) (specs : List PatternSpec)
    (o : String) : (calculateIntentScore n specs o).1 ≤ 1 := by
  unfold calculateIntentScore
  dsimp only
  exact min_le_right _ _

/-- All weights in the fallback pattern library are nonnegative. -/
theorem lib_weights_nonneg :
    ∀ pr ∈ intentPatternsLib, ∀ sp ∈ pr.2, 0 ≤ sp.weight := by
  intro pr hpr sp hsp
  fin_cases hpr <;> fin_cases hsp <;> norm_num

theorem fallbackScores_bounds (input : String) :
    ∀ q ∈ fallbackScores input, 0 ≤ q.2 ∧ q.2 ≤ 1 := by
  intro q hq
  obtain ⟨tr, htr, rfl⟩ := List.mem_map.mp hq
  obtain ⟨pr, hpr, rfl⟩ := List.mem_map.mp htr
  dsimp only
  exact ⟨calculateIntentScore_fst_nonneg _ _ _ (lib_weights_nonneg pr hpr),
    calculateIntentScore_fst_le_one _ _ _⟩

theorem fallbackScores_ne_nil (input : String) : fallbackScores input ≠ [] := by
  simp [fallbackScores, fallbackTriples, intentPatternsLib]

theorem bestFallback_bounds (input : String) :
    0 ≤ (bestFallback input).2 ∧ (bestFallback input).2 ≤ 1 := by
  cases hme : PyDict.maxEntry (fallbackScores input) with
  | none => exact absurd (PyDict.maxEntry_eq_none hme) (fallbackScores_ne_nil input)
  | some p =>
    have hmem := PyDict.maxEntry_mem hme
    have hb := fallbackScores_bounds input p hmem
    simp only [bestFallback, hme, Option.getD_some]
    exact hb

theorem recognizeWithPatterns_confidence_eq (input : String) :
    (recognizeWithPatterns input).confidence = (bestFallback input).2 := by
  unfold recognizeWithPatterns
  dsimp only
  split <;> rfl

end PyIntent

namespace PyIntent

open PyStr Rgx

theorem conversationalScore_nonneg (low : String) :
    0 ≤ conversationalScore low := by
  have hgen : ∀ (l : List Rx) (a : ℚ),
      a ≤ l.foldl
        (fun s p => if (pySearch false p low).isSome then s + 0.2 else s) a := by
    intro l
    induction l with
    | nil => intro a; simp
    | cons x rest ih =>
      intro a
      simp only [List.foldl_cons]
      by_cases h : (pySearch false x low).isSome = true
      · rw [if_pos h]
        exact le_trans (by linarith) (ih (a + 0.2))
      · rw [if_neg h]
        exact ih a
  exact hgen conversationalPatterns 0

set_option maxHeartbeats 1000000 in
theorem analyzeForAiChat_bounds (doc : Doc) (input : String) :
    0 ≤ (analyzeForAiChat doc input).2 ∧ (analyzeForAiChat doc input).2 ≤ 1 := by
  have h1 := conversationalScore_nonneg (pyLower input)
  unfold analyzeForAiChat
  dsimp only
  split_ifs with h2 h3 h4 h5 h6 h7
  all_goals dsimp only
  all_goals constructor
  all_goals (first
    | exact le_min (by linarith) (by norm_num)
    | exact le_trans (min_le_right _ _) (by norm_num)
    | linarith)

theorem enhanceQuestion_nonneg (doc : Doc) {d : List (IntentType × ℚ)}
    (hd : ∀ p ∈ d, 0 ≤ p.2) : ∀ p ∈ enhanceQuestion doc d, 0 ≤ p.2 := by
  unfold enhanceQuestion
  split
  · exact PyDict.bump_nonneg hd (by norm_num)
  · exact hd

theorem enhanceImperative_nonneg (doc : Doc) {d : List (IntentType × ℚ)}
    (hd : ∀ p ∈ d, 0 ≤ p.2) : ∀ p ∈ enhanceImperative doc d, 0 ≤ p.2 := by
  unfold enhanceImperative
  split
  · exact PyDict.foldl_bumpIfPresent_nonneg _ _ (by norm_num) d hd
  · exact hd

theorem enhanceFileEnts_nonneg (doc : Doc) {d : List (IntentType × ℚ)}
    (hd : ∀ p ∈ d, 0 ≤ p.2) : ∀ p ∈ enhanceFileEnts doc d, 0 ≤ p.2 := by
  unfold enhanceFileEnts
  split
  · exact PyDict.foldl_bumpIfPresent_nonneg _ _ (by norm_num) d hd
  · exact hd

theorem enhanceHelp_nonneg (input : String) {d : List (IntentType × ℚ)}
    (hd : ∀ p ∈ d, 0 ≤ p.2) : ∀ p ∈ enhanceHelp input d, 0 ≤ p.2 := by
  unfold enhanceHelp
  split
  · exact PyDict.bump_nonneg hd (by norm_num)
  · exact hd

theorem spacyScores_nonneg (doc : Doc) (ml : List SMatch) (input : String) :
    ∀ p ∈ spacyScores doc ml input, 0 ≤ p.2 := by
  unfold spacyScores
  dsimp only
  have h0 : ∀ p ∈ ml.foldl
      (fun d m => PyDict.bump d (mapSpacyIntent m.name) 0.8)
      ([] : List (IntentType × ℚ)), 0 ≤ p.2 :=
    PyDict.foldl_bump_nonneg (by norm_num)
      (fun m : SMatch => mapSpacyIntent m.name) ml [] (by simp)
  unfold enhanceScores
  exact enhanceHelp_nonneg _ (enhanceFileEnts_nonneg _
    (enhanceImperative_nonneg _ (enhanceQuestion_nonneg _ h0)))

theorem spacyBest_bounds (doc : Doc) (ml : List SMatch) (input : String) :
    0 ≤ (spacyBest doc ml input).2 ∧ (spacyBest doc ml input).2 ≤ 1 := by
  cases hme : PyDict.maxEntry (spacyScores doc ml input) with
  | none => simpa only [spacyBest, hme] using analyzeForAiChat_bounds doc input
  | some p =>
    have hnn := spacyScores_nonneg doc ml input p (PyDict.maxEntry_mem hme)
    simp only [spacyBest, hme]
    exact ⟨le_min hnn zero_le_one, min_le_right _ _⟩

theorem recognizeWithSpacy_confidence_eq (doc : Doc) (ml : List SMatch)
    (input : String) :
    (recognizeWithSpacy doc ml input).confidence = (spacyBest doc ml input).2 := by
  unfold recognizeWithSpacy
  dsimp only
  split <;> rfl

/-- The closed action-kind set of the engine. -/
def allIntentTypes : List IntentType :=
  [.SUMMARIZE, .RUN_SCRIPT, .LIST, .SHOW, .PREVIEW, .RENAME, .SEARCH, .HELP,
   .EXIT, .AI_CHAT, .UNKNOWN]

theorem intentType_mem_all (t : IntentType) : t ∈ allIntentTypes := by
  cases t <;> simp [allIntentTypes]

end PyIntent

/-! ## Claims -/

/-- **C1.** For every input string that is empty or consists only of
whitespace, `recognize` returns an `Intent` with type `UNKNOWN`, confidence
exactly `0.0`, an empty parameters mapping, no target, and `original_input`
equal to the given text — the guard returns this constant for any annotation
pipeline and in both modes, so neither the linguistic matcher nor the
fallback scorer contributes to the result. -/
theorem C1_blank_input_unknown (nlp : String → PyIntent.Doc)
    (matcher : PyIntent.Doc → List PyIntent.SMatch) (useSpacy : Bool)
    (input : String) (h : ∀ c ∈ input.data, PyStr.pyIsSpace c = true) :
    PyIntent.recognize nlp matcher useSpacy input =
      { type := .UNKNOWN, confidence := 0, target := none, parameters := [],
        original_input := input } := by
  unfold PyIntent.recognize
  rw [pyStrip_eq_empty h]
  norm_num

/-- Witness for C1 at the whitespace input `"  "` (two spaces), in
linguistic mode with an arbitrary pipeline. -/
theorem C1_blank_input_unknown_witness :
    (∀ c ∈ ("  " : String).data, PyStr.pyIsSpace c = true) ∧
      PyIntent.recognize (fun _ => ⟨[], []⟩) (fun _ => []) true "  " =
        { type := .UNKNOWN, confidence := 0, target := none, parameters := [],
          original_input := "  " } :=
  ⟨by decide,
   C1_blank_input_unknown (fun _ => ⟨[], []⟩) (fun _ => []) true "  " (by decide)⟩

/-- **C2.** For every input string (and any behaviour of the annotation
pipeline), `recognize` returns exactly one `Intent` whose confidence lies in
the closed interval `[0, 1]` and whose type is a member of the closed
action-kind set, on both the linguistic path (`use_spacy = true`) and the
fallback path (`use_spacy = false`). -/
theorem C2_confidence_in_range (nlp : String → PyIntent.Doc)
    (matcher : PyIntent.Doc → List PyIntent.SMatch) (useSpacy : Bool)
    (input : String) :
    0 ≤ (PyIntent.recognize nlp matcher useSpacy input).confidence ∧
      (PyIntent.recognize nlp matcher useSpacy input).confidence ≤ 1 ∧
      (PyIntent.recognize nlp matcher useSpacy input).type ∈
        PyIntent.allIntentTypes := by
  refine ⟨?_, ?_, PyIntent.intentType_mem_all _⟩ <;>
  · unfold PyIntent.recognize
    split
    · dsimp only
      norm_num
    · split
      · rw [PyIntent.recognizeWithSpacy_confidence_eq]
        first
          | exact (PyIntent.spacyBest_bounds _ _ _).1
          | exact (PyIntent.spacyBest_bounds _ _ _).2
      · rw [PyIntent.recognizeWithPatterns_confidence_eq]
        first
          | exact (PyIntent.bestFallback_bounds _).1
          | exact (PyIntent.bestFallback_bounds _).2

/-- **C3 counterexample.** On the fallback path the input
`"exit quit bye"` matches the EXIT action kind and receives confidence
exactly `1.0` — not a value strictly below `0.9`.  The fallback score is
`min(total_score, 1.0)`; no `matched_text_length / input_length` formula or
0.8 cap exists in `_calculate_intent_score`. -/
theorem C3_fallback_ceiling_cex :
    PyIntent.recognizeWithPatterns "exit quit bye" =
      { type := .EXIT, confidence := 1, target := none, parameters := [],
        original_input := "exit quit bye" } ∧
      ¬((PyIntent.recognizeWithPatterns "exit quit bye").confidence < 0.9) := by
  have h : PyIntent.recognizeWithPatterns "exit quit bye" =
      { type := .EXIT, confidence := 1, target := none, parameters := [],
        original_input := "exit quit bye" } := by with_unfolding_all decide
  exact ⟨h, by rw [h]; norm_num⟩

/-- **C3 amended.** Fallback scores are bounded above by `1.0` — the cap is
`min(total_score, 1.0)`, attained on `"exit quit bye"` — not by 0.8, and
they are not strictly below 0.9: for every normalized input, pattern list
and original input the fallback score is at most 1, hence so is every
fallback-path confidence. -/
theorem C3_fallback_cap_one :
    (∀ (n : String) (specs : List PyIntent.PatternSpec) (o : String),
        (PyIntent.calculateIntentScore n specs o).1 ≤ 1) ∧
      ∀ input : String, (PyIntent.recognizeWithPatterns input).confidence ≤ 1 := by
  constructor
  · exact fun n specs o => PyIntent.calculateIntentScore_fst_le_one n specs o
  · intro input
    rw [PyIntent.recognizeWithPatterns_confidence_eq]
    exact (PyIntent.bestFallback_bounds input).2

/-- **C8 counterexample.** For `"run organize_ai_scripts.py"` (fallback
path) the extracted target is `"organize_ai_scripts"`: the `\w+` of
`\brun\s+\w+` stops at the dot, so the target does not contain the full
file name `"organize_ai_scripts.py"` as the claim requires. -/
theorem C8_run_target_cex :
    (PyIntent.recognizeWithPatterns "run organize_ai_scripts.py").target =
      some "organize_ai_scripts" ∧
      PyStr.pyIn "organize_ai_scripts.py"
          (((PyIntent.recognizeWithPatterns
            "run organize_ai_scripts.py").target).getD "") = false := by
  with_unfolding_all decide

/-- **C8 amended.** For `"run organize_ai_scripts.py"` the fallback result
has type `RUN_SCRIPT`, confidence `33/50 = 0.66 ≥ 0.5`, and a target that
contains `"organize_ai_scripts"` — the script name without its `.py`
extension, which the regex target extraction cuts off. -/
theorem C8_run_intent :
    (PyIntent.recognizeWithPatterns "run organize_ai_scripts.py").type =
        .RUN_SCRIPT ∧
      (PyIntent.recognizeWithPatterns "run organize_ai_scripts.py").target =
        some "organize_ai_scripts" ∧
      PyStr.pyIn "organize_ai_scripts"
          (((PyIntent.recognizeWithPatterns
            "run organize_ai_scripts.py").target).getD "") = true ∧
      (PyIntent.recognizeWithPatterns "run organize_ai_scripts.py").confidence =
        33 / 50 ∧
      0.5 ≤ (PyIntent.recognizeWithPatterns
        "run organize_ai_scripts.py").confidence := by
  have h : PyIntent.recognizeWithPatterns "run organize_ai_scripts.py" =
      { type := .RUN_SCRIPT, confidence := 33 / 50,
        target := some "organize_ai_scripts",
        parameters := [("file_type", "python")],
        original_input := "run organize_ai_scripts.py" } := by
    with_unfolding_all decide
  rw [h]
  exact ⟨rfl, rfl, by decide, rfl, by norm_num⟩

/-- **C9.** The caller-side confidence gate of `handle_intent` behaves
exactly as specified, for every confidence value regardless of which matcher
produced it: below 0.3 the action is not executed and the user is asked to
rephrase; in `[0.3, 0.5)` the action runs only after a yes/no confirmation;
at least 0.5 executes without confirmation. -/
theorem C9_gate_thresholds (c : ℚ) :
    (Terminal.handleIntentGate c = .rephrase ↔ c < 0.3) ∧
      (Terminal.handleIntentGate c = .confirmFirst ↔ 0.3 ≤ c ∧ c < 0.5) ∧
      (Terminal.handleIntentGate c = .execute ↔ 0.5 ≤ c) := by
  unfold Terminal.handleIntentGate
  split_ifs with h1 h2
  · refine ⟨by simp [h1], ?_, ?_⟩
    · simp only [reduceCtorEq, false_iff]
      rintro ⟨ha, -⟩
      linarith
    · simp only [reduceCtorEq, false_iff, not_le]
      linarith
  · refine ⟨?_, ?_, ?_⟩
    · simp only [reduceCtorEq, false_iff, not_lt]
      linarith [not_lt.mp h1]
    · simp only [true_iff]
      exact ⟨not_lt.mp h1, h2⟩
    · simp only [reduceCtorEq, false_iff, not_le]
      linarith
  · refine ⟨?_, ?_, ?_⟩
    · simp only [reduceCtorEq, false_iff, not_lt]
      linarith [not_lt.mp h1]
    · simp only [reduceCtorEq, false_iff]
      rintro ⟨-, hb⟩
      exact h2 hb
    · simp only [true_iff]
      linarith [not_lt.mp h2]

namespace PyIntent

open PyStr

theorem recognizeWithPatterns_type_eq (input : String) :
    (recognizeWithPatterns input).type =
      if (bestFallback input).2 < 0.3 then IntentType.UNKNOWN
      else (bestFallback input).1 := by
  unfold recognizeWithPatterns
  dsimp only
  split_ifs with h <;> rfl

/-- The per-token test of `_extract_file_target_regex`, as one predicate:
the token's cleaned form ends in a known extension, or contains an
underscore or hyphen. -/
def qualifiesAsTarget (w : String) : Bool :=
  fileExtensions.any (fun ext => pyEndsWith (pyCleanWord w) ext) ||
  (pyIn "_" (pyCleanWord w) || pyIn "-" (pyCleanWord w))

theorem extractTargetWords_eq_find (ws : List String) :
    extractFileTargetWords ws = (ws.find? qualifiesAsTarget).map pyCleanWord := by
  induction ws with
  | nil => rfl
  | cons w rest ih =>
    by_cases h1 : fileExtensions.any
        (fun ext => pyEndsWith (pyCleanWord w) ext) = true
    · have hq : qualifiesAsTarget w = true := by
        simp [qualifiesAsTarget, h1]
      rw [List.find?_cons_of_pos _ hq]
      unfold extractFileTargetWords
      rw [if_pos h1]
      rfl
    · by_cases h2 : (pyIn "_" (pyCleanWord w) || pyIn "-" (pyCleanWord w)) = true
      · have hq : qualifiesAsTarget w = true := by
          simp [qualifiesAsTarget, h2]
        rw [List.find?_cons_of_pos _ hq]
        unfold extractFileTargetWords
        rw [if_neg h1, if_pos h2]
        rfl
      · have hq : qualifiesAsTarget w = false := by
          unfold qualifiesAsTarget
          rw [Bool.not_eq_true] at h1 h2
          rw [h1, h2]
          rfl
        rw [List.find?_cons_of_neg _ (by simp [hq])]
        unfold extractFileTargetWords
        rw [if_neg h1, if_neg h2]
        exact ih

end PyIntent

/-- **C10.** For every non-empty input whose best score is below the 0.3
threshold, the UNKNOWN Intent returned carries `target = None` and an empty
parameters mapping — targets and parameters extracted during scoring are
discarded — while `original_input` holds the full input string and
`confidence` the computed best score; this holds on the fallback path and on
the linguistic path. -/
theorem C10_low_confidence_unknown :
    (∀ (nlp : String → PyIntent.Doc)
        (matcher : PyIntent.Doc → List PyIntent.SMatch) (input : String),
        PyStr.pyStrip input ≠ "" →
        (PyIntent.bestFallback input).2 < 0.3 →
        PyIntent.recognize nlp matcher false input =
          { type := .UNKNOWN, confidence := (PyIntent.bestFallback input).2,
            target := none, parameters := [], original_input := input }) ∧
      ∀ (doc : PyIntent.Doc) (ml : List PyIntent.SMatch) (input : String),
        (PyIntent.spacyBest doc ml input).2 < 0.3 →
        PyIntent.recognizeWithSpacy doc ml input =
          { type := .UNKNOWN, confidence := (PyIntent.spacyBest doc ml input).2,
            target := none, parameters := [], original_input := input } := by
  constructor
  · intro nlp matcher input hne hlt
    have hi : input ≠ "" := fun h => hne (by rw [h]; rfl)
    have h1 : (input == "" || PyStr.pyStrip input == "") = false := by
      simp [hi, hne]
    unfold PyIntent.recognize
    rw [h1]
    simp only [Bool.false_eq_true, if_false]
    unfold PyIntent.recognizeWithPatterns
    dsimp only
    rw [if_pos hlt]
  · intro doc ml input hlt
    unfold PyIntent.recognizeWithSpacy
    dsimp only
    rw [if_pos hlt]

/-- Witness for C10 at the gibberish input `"qqq"`, on both paths. -/
theorem C10_low_confidence_unknown_witness :
    (PyStr.pyStrip "qqq" ≠ "" ∧ (PyIntent.bestFallback "qqq").2 < 0.3 ∧
      PyIntent.recognize (fun _ => ⟨[], []⟩) (fun _ => []) false "qqq" =
        { type := .UNKNOWN, confidence := (PyIntent.bestFallback "qqq").2,
          target := none, parameters := [], original_input := "qqq" }) ∧
      ((PyIntent.spacyBest ⟨[⟨"qqq", "NN", "x", ""⟩], []⟩ [] "qqq").2 < 0.3 ∧
        PyIntent.recognizeWithSpacy ⟨[⟨"qqq", "NN", "x", ""⟩], []⟩ [] "qqq" =
          { type := .UNKNOWN,
            confidence := (PyIntent.spacyBest ⟨[⟨"qqq", "NN", "x", ""⟩], []⟩ [] "qqq").2,
            target := none, parameters := [], original_input := "qqq" }) := by
  refine ⟨⟨by decide, by with_unfolding_all decide, ?_⟩,
    ⟨by with_unfolding_all decide, ?_⟩⟩
  · exact C10_low_confidence_unknown.1 _ _ "qqq" (by decide)
      (by with_unfolding_all decide)
  · exact C10_low_confidence_unknown.2 _ _ "qqq" (by with_unfolding_all decide)

/-- **C6 counterexample.** On the linguistic path the tie-break between
action kinds with equal scores depends on the order of the matcher output —
input data — not on registration order: with the same tokens and input
`"show files"`, SHOW and LIST are tied at 0.8, LIST was registered before
SHOW, yet the winner is whichever match came first. -/
theorem C6_tiebreak_cex :
    (PyIntent.recognizeWithSpacy
        ⟨[⟨"show", "NN", "x", ""⟩, ⟨"files", "NN", "x", ""⟩], []⟩
        [⟨"SHOW", 0, 2⟩, ⟨"LIST", 0, 2⟩] "show files").type = .SHOW ∧
      (PyIntent.recognizeWithSpacy
        ⟨[⟨"show", "NN", "x", ""⟩, ⟨"files", "NN", "x", ""⟩], []⟩
        [⟨"LIST", 0, 2⟩, ⟨"SHOW", 0, 2⟩] "show files").type = .LIST ∧
      PyDict.getD0 (PyIntent.spacyScores
          ⟨[⟨"show", "NN", "x", ""⟩, ⟨"files", "NN", "x", ""⟩], []⟩
          [⟨"SHOW", 0, 2⟩, ⟨"LIST", 0, 2⟩] "show files") .SHOW =
        PyDict.getD0 (PyIntent.spacyScores
          ⟨[⟨"show", "NN", "x", ""⟩, ⟨"files", "NN", "x", ""⟩], []⟩
          [⟨"SHOW", 0, 2⟩, ⟨"LIST", 0, 2⟩] "show files") .LIST ∧
      PyIntent.spacyRegistration.indexOf .LIST <
        PyIntent.spacyRegistration.indexOf .SHOW := by
  refine ⟨by with_unfolding_all decide, by with_unfolding_all decide,
    by with_unfolding_all decide, by decide⟩

/-- **C6 amended.** On the fallback path the selection is deterministic:
the scores table is in the fixed registration order of the pattern library,
the chosen entry is maximal, every entry registered before it scores
strictly less (exact ties go to the first-registered kind), and the
recognizer returns the chosen kind (UNKNOWN below the 0.3 threshold).  On
the linguistic path, ties between equal scores are broken by the order of
the matcher output, which depends on the input (see the counterexample). -/
theorem C6_fallback_tiebreak (input : String) :
    (PyIntent.fallbackScores input).map Prod.fst = PyIntent.registrationOrder ∧
      ∃ l1 l2, PyIntent.fallbackScores input =
          l1 ++ PyIntent.bestFallback input :: l2 ∧
        (∀ q ∈ l1, q.2 < (PyIntent.bestFallback input).2) ∧
        (∀ q ∈ l2, q.2 ≤ (PyIntent.bestFallback input).2) ∧
        (PyIntent.recognizeWithPatterns input).type =
          (if (PyIntent.bestFallback input).2 < 0.3 then .UNKNOWN
           else (PyIntent.bestFallback input).1) := by
  constructor
  · rfl
  · cases hcons : PyIntent.fallbackScores input with
    | nil => exact absurd hcons (PyIntent.fallbackScores_ne_nil input)
    | cons hd tl =>
      have hbest : PyIntent.bestFallback input = PyDict.maxGo hd tl := by
        simp [PyIntent.bestFallback, PyDict.maxEntry, hcons]
      obtain ⟨l1, l2, heq, hlt, hle⟩ := PyDict.maxGo_decomp tl hd
      refine ⟨l1, l2, ?_, ?_, ?_, PyIntent.recognizeWithPatterns_type_eq input⟩
      · rw [hbest]; exact heq
      · rw [hbest]; exact hlt
      · rw [hbest]; exact hle

/-- **C7 counterexample.** In `"my_notes file.txt"` the token `file.txt`
ends with the known extension `.txt`, yet the extracted target is
`"my_notes"` and does not end with that extension: the loop applies both the
extension rule and the underscore/hyphen rule to each token before moving to
the next token, so an earlier underscore token beats a later extension
token. -/
theorem C7_target_extension_cex :
    PyIntent.extractFileTargetRegex "my_notes file.txt" = some "my_notes" ∧
      PyStr.pySplit "my_notes file.txt" = ["my_notes", "file.txt"] ∧
      PyStr.pyEndsWith (PyStr.pyCleanWord "file.txt") ".txt" = true ∧
      PyStr.pyEndsWith "my_notes" ".txt" = false := by decide

/-- **C7 amended.** File-target extraction scans tokens left to right and,
within each token, tries the extension rule before the underscore/hyphen
rule; only when no token qualifies is the first quoted substring used.
Consequently the target ends with a known extension whenever the *first*
qualifying token qualifies by extension. -/
theorem C7_target_extraction_order (input : String) :
    (PyIntent.extractFileTargetRegex input =
      (match (PyStr.pySplit input).find? PyIntent.qualifiesAsTarget with
       | some w => some (PyStr.pyCleanWord w)
       | none => PyStr.firstQuoted input)) ∧
      ∀ w, (PyStr.pySplit input).find? PyIntent.qualifiesAsTarget = some w →
        PyIntent.fileExtensions.any
          (fun ext => PyStr.pyEndsWith (PyStr.pyCleanWord w) ext) = true →
        PyIntent.extractFileTargetRegex input = some (PyStr.pyCleanWord w) ∧
          ∃ ext ∈ PyIntent.fileExtensions,
            PyStr.pyEndsWith (PyStr.pyCleanWord w) ext = true := by
  have hmain : PyIntent.extractFileTargetRegex input =
      (match (PyStr.pySplit input).find? PyIntent.qualifiesAsTarget with
       | some w => some (PyStr.pyCleanWord w)
       | none => PyStr.firstQuoted input) := by
    unfold PyIntent.extractFileTargetRegex
    rw [PyIntent.extractTargetWords_eq_find]
    cases (PyStr.pySplit input).find? PyIntent.qualifiesAsTarget <;> rfl
  refine ⟨hmain, ?_⟩
  intro w hfind hext
  constructor
  · rw [hmain, hfind]
  · simpa using List.any_eq_true.mp hext

/-- Witness for C7 at `"run file.txt"`: the first qualifying token is the
extension token, and the extracted target ends with `.txt`. -/
theorem C7_target_extraction_order_witness :
    PyIntent.extractFileTargetRegex "run file.txt" = some "file.txt" ∧
      PyStr.pyEndsWith "file.txt" ".txt" = true :=
  ⟨((C7_target_extraction_order "run file.txt").2 "file.txt" (by decide)
      (by decide)).1, by decide⟩

/-- **C4 counterexample.** In the fallback mode of `src/ai/intent.py`, the
input `"?"` contains a question mark and matches nothing (every action kind
scores 0), yet `recognize` returns UNKNOWN with confidence 0.0, not CHAT
with a score around 0.5: this fallback has no question-mark/interrogative
branch. -/
theorem C4_question_mark_cex :
    PyStr.pyIn "?" "?" = true ∧
      (PyIntent.fallbackScores "?").all (fun p => p.2 == 0) = true ∧
      PyIntent.recognizeWithPatterns "?" =
        { type := .UNKNOWN, confidence := 0, target := none, parameters := [],
          original_input := "?" } := by
  refine ⟨by decide, by with_unfolding_all decide, by with_unfolding_all decide⟩

/-- **C4 amended.** The claimed behaviour is that of the duplicate fallback
in `src/ai/__init__.py`: whenever no fallback pattern matches, an input
containing `?` or beginning with an interrogative word yields AI_CHAT with
confidence exactly 0.5 (with the raw text as `query` parameter), and any
other input yields UNKNOWN with confidence exactly 0.0.  The primary
fallback in `src/ai/intent.py` has no such branch and returns UNKNOWN with
the best keyword score instead (see the counterexample). -/
theorem C4_no_match_tail (text : String) (h : PyInit.loopMatch text = none) :
    PyInit.recognizeWithPatterns text =
      (if (PyStr.pyIn "?" text ||
          PyStr.pyStartsWithAny (PyStr.pyLower text) PyInit.interrogativeLeads) then
        { type := .AI_CHAT, confidence := 0.5, params := [("query", text)],
          original_text := text }
       else
        { type := .UNKNOWN, confidence := 0.0, params := [],
          original_text := text }) := by
  unfold PyInit.recognizeWithPatterns
  rw [h]
  rfl

/-- Witness for C4 at the no-match input `"zzz"` (no question mark, no
interrogative lead → UNKNOWN at 0.0). -/
theorem C4_no_match_tail_witness :
    PyInit.loopMatch "zzz" = none ∧
      PyInit.recognizeWithPatterns "zzz" =
        { type := .UNKNOWN, confidence := 0.0, params := [],
          original_text := "zzz" } := by
  have h : PyInit.loopMatch "zzz" = none := by with_unfolding_all decide
  refine ⟨h, ?_⟩
  rw [C4_no_match_tail "zzz" h]
  with_unfolding_all decide

/-- **C5 counterexample.** On the linguistic path of `src/ai/intent.py`,
the input `"zzz?"` ends with a question mark and produces no matcher
output, yet the result is UNKNOWN with confidence 0.3 — not CHAT with a
fixed score in [0.6, 0.7]: `_analyze_for_ai_chat` collects only 0.3 from
the trailing question mark, below its own 0.4 bar. -/
theorem C5_question_cex :
    PyStr.pyEndsWith "zzz?" "?" = true ∧
      PyIntent.recognizeWithSpacy
          ⟨[⟨"zzz", "NN", "x", ""⟩, ⟨"?", ".", "x", ""⟩], []⟩ [] "zzz?" =
        { type := .UNKNOWN, confidence := 3 / 10, target := none,
          parameters := [], original_input := "zzz?" } := by
  refine ⟨by decide, by with_unfolding_all decide⟩

/-- **C5 amended.** The claimed behaviour is that of the linguistic path of
`src/ai/__init__.py`: when the matcher yields no matches and the input ends
with `?` or contains an interrogative token (wh-word or can/could/would),
the result is AI_CHAT with the fixed confidence 0.7 — inside [0.6, 0.7] and
at least 0.5 — and no exception is possible (total function).  In
particular `"What can you do?"` yields AI_CHAT at 0.7.  The linguistic path
of `src/ai/intent.py` instead scores a bare trailing question mark 0.3 and
returns UNKNOWN (see the counterexample). -/
theorem C5_interrogative_chat (tokens : List String) (text : String)
    (h : (PyStr.pyEndsWith text "?" ||
        tokens.any (fun t =>
          PyInit.interrogativeTokens.contains (PyStr.pyLower t))) = true) :
    PyInit.recognizeWithSpacy tokens [] text =
      { type := .AI_CHAT, confidence := 0.7, params := [],
        original_text := text } ∧
      (0.6 : ℚ) ≤ 0.7 ∧ (0.7 : ℚ) ≤ 0.7 ∧ (0.5 : ℚ) ≤ 0.7 := by
  refine ⟨?_, by norm_num, by norm_num, by norm_num⟩
  unfold PyInit.recognizeWithSpacy
  rw [if_pos h]

/-- Witness for C5 at `"What can you do?"` with its token list and an empty
matcher output. -/
theorem C5_interrogative_chat_witness :
    ((PyStr.pyEndsWith "What can you do?" "?" ||
        (["What", "can", "you", "do", "?"] : List String).any
          (fun t => PyInit.interrogativeTokens.contains (PyStr.pyLower t))) =
      true) ∧
      PyInit.recognizeWithSpacy ["What", "can", "you", "do", "?"] []
          "What can you do?" =
        { type := .AI_CHAT, confidence := 0.7, params := [],
          original_text := "What can you do?" } ∧
      (0.5 : ℚ) ≤ (PyInit.recognizeWithSpacy ["What", "can", "you", "do", "?"]
        [] "What can you do?").confidence := by
  have h := C5_interrogative_chat ["What", "can", "you", "do", "?"]
    "What can you do?" (by decide)
  exact ⟨by decide, h.1, by rw [h.1]; norm_num⟩
